import Mathlib

/-!
Shallow embedding of the Cura profile-resolution subsystem
(`cura/Machines/QualityManager.py`, `cura/Machines/MaterialManager.py`,
`cura/Settings/IntentManager.py`) and proofs about the claims of the
specification.  Python dictionaries are modelled as insertion-ordered
association lists (`PyDict`); Python runtime errors are modelled with an
`Except PyErr` monad.
-/

namespace Cura

/-- Errors a Python runtime can raise in the modelled code paths. -/
inductive PyErr where
  | valueError
  | typeError
  | keyError
  deriving DecidableEq, Repr

/-- Python dict with `String` keys: an insertion-ordered association list
whose keys are unique in any state a Python program can build. -/
abbrev PyDict (α : Type) := List (String × α)

/-- Lookup of a key (`d.get(k)` / `k in d`), first match. -/
def PyDict.get? {α : Type} (d : PyDict α) (k : String) : Option α :=
  (d.find? (fun p => p.1 == k)).map (fun p => p.2)

/-- Membership test `k in d`. -/
def PyDict.hasKey {α : Type} (d : PyDict α) (k : String) : Bool :=
  d.any (fun p => p.1 == k)

/-- Key list, in insertion order (`d.keys()`). -/
def PyDict.keys {α : Type} (d : PyDict α) : List String :=
  d.map (fun p => p.1)

/-- Python dict assignment `d[k] = v`: replace the first binding of `k`
in place, or append a new binding at the end. -/
def PyDict.set {α : Type} (d : PyDict α) (k : String) (v : α) : PyDict α :=
  match d with
  | [] => [(k, v)]
  | (k', v') :: rest => if k' == k then (k, v) :: rest else (k', v') :: PyDict.set rest k v

/-- Python subscript `d[k]`, raising `KeyError` when the key is absent. -/
def pyIndex {α : Type} (d : PyDict α) (k : String) : Except PyErr α :=
  match d.get? k with
  | some v => Except.ok v
  | none => Except.error PyErr.keyError

/-- Semantics of `UM.Util.parseBool` applied to a metadata entry fetched
with default `False`: the value is in `[True, "True", "true", "Yes", "yes", 1]`.
Our metadata values are strings; an absent entry is the Python `False` default. -/
def parseBool (value : Option String) : Bool :=
  match value with
  | some s => ["True", "true", "Yes", "yes"].contains s
  | none => false

/-- Machine definition container: its id and its metadata dictionary. -/
structure MachineDefinition where
  id : String
  metadata : PyDict String
  deriving DecidableEq, Repr

/-- Embedding of the module-level function
`QualityManager.getMachineDefinitionIDForQualitySearch`. -/
def getMachineDefinitionIDForQualitySearch (machine_definition : MachineDefinition)
    (default_definition_id : String := "fdmprinter") : String :=
  let machine_definition_id := default_definition_id
  if parseBool (machine_definition.metadata.get? "has_machine_quality") then
    match machine_definition.metadata.get? "quality_definition" with
    | none => machine_definition.id
    | some quality_definition => quality_definition
  else machine_definition_id

/-- Quality node of the container tree (`cura/Machines/QualityNode.py`,
not under the sources given; per the spec it carries the quality container
whose metadata `getQualityGroups` reads). -/
structure QualityNode where
  metadata : PyDict String
  deriving DecidableEq, Repr

/-- Material node of the container tree: holds the quality-type map
specific to this material (spec section 3). -/
structure MaterialNode where
  qualities : PyDict QualityNode
  deriving DecidableEq, Repr

/-- Variant node of the container tree: root-material-id to material node. -/
structure VariantNode where
  materials : PyDict MaterialNode
  deriving DecidableEq, Repr

/-- Machine node of the container tree: variant-name map and the machine's
global quality-type map. -/
structure MachineNode where
  variants : PyDict VariantNode
  global_qualities : PyDict QualityNode
  deriving DecidableEq, Repr

/-- One extruder stack as `getQualityGroups` reads it: the enabled flag,
the variant name and the material's `base_file` metadata entry. -/
structure Extruder where
  isEnabled : Bool
  variantName : String
  materialBaseFile : Option String
  deriving DecidableEq, Repr

/-- Global stack as the quality manager reads it: definition id, definition
metadata, and the position-keyed extruder dictionary. -/
structure GlobalStack where
  definitionId : String
  definitionMetadata : PyDict String
  extruders : PyDict Extruder
  deriving DecidableEq, Repr

/-- The `QualityGroup` aggregate (`cura/Machines/QualityGroup.py`, not under
the sources given; fields per spec section 3, `is_available` starts `False`). -/
structure QualityGroup where
  name : String
  quality_type : String
  node_for_global : Option QualityNode := none
  nodes_for_extruders : PyDict QualityNode := []
  is_available : Bool := false
  deriving DecidableEq, Repr

/-- Effective quality source of one enabled extruder (`getQualityGroups`
lines 116-123): the specialised variant+material quality map when the
`(variant, material base_file)` pair exists in the tree, the machine's
`global_qualities` otherwise. -/
def effectiveQualitySource (machine_node : MachineNode) (extruder : Extruder) :
    PyDict QualityNode :=
  match machine_node.variants.get? extruder.variantName with
  | none => machine_node.global_qualities
  | some variant_node =>
    match extruder.materialBaseFile with
    | none => machine_node.global_qualities
    | some material_base =>
      match variant_node.materials.get? material_base with
      | none => machine_node.global_qualities
      | some material_node => material_node.qualities

/-- Builds `qualities_per_type_per_extruder`: enabled extruders only, in
dictionary order, each mapped to its effective quality source. -/
def qualitiesPerTypePerExtruder (machine_node : MachineNode)
    (extruders : PyDict Extruder) : PyDict (PyDict QualityNode) :=
  extruders.foldl
    (fun acc p =>
      if !p.2.isEnabled then acc
      else acc.set p.1 (effectiveQualitySource machine_node p.2))
    []

/-- Python tuple unpacking `a, b = s` of a string `s`: succeeds exactly when
the string has two characters, otherwise raises `ValueError`. -/
def pyUnpack2 (s : String) : Except PyErr (String × String) :=
  match s.data with
  | [a, b] => Except.ok (String.mk [a], String.mk [b])
  | _ => Except.error PyErr.valueError

/-- Python subscript `s[k]` on a `str` with a `str` key: always `TypeError`. -/
def strSubscript (_s : String) (_k : String) : Except PyErr QualityNode :=
  Except.error PyErr.typeError

/-- The inner loop of `getQualityGroups` line 130,
`for extruder, qualities_per_type in qualities_per_type_per_extruder:`.
The dictionary is iterated without `.items()`, so each iteration unpacks a
key string into two variables and then subscripts a string. -/
def qualityGroupExtruderLoop (qualities_per_type_per_extruder : PyDict (PyDict QualityNode))
    (quality_type : String) (group : QualityGroup) : Except PyErr QualityGroup :=
  match qualities_per_type_per_extruder with
  | [] => Except.ok group
  | (key, _) :: rest =>
    match pyUnpack2 key with
    | Except.error e => Except.error e
    | Except.ok (extruder, qualities_per_type) =>
      match strSubscript qualities_per_type quality_type with
      | Except.error e => Except.error e
      | Except.ok node => qualityGroupExtruderLoop rest quality_type
          { group with nodes_for_extruders := group.nodes_for_extruders.set extruder node }

/-- The `QualityGroup` constructed for one global quality node
(`getQualityGroups` lines 128-129). -/
def initialQualityGroup (quality_type : String) (global_quality_node : QualityNode) :
    QualityGroup :=
  { name := (global_quality_node.metadata.get? "name").getD "Unnamed profile",
    quality_type := quality_type,
    node_for_global := some global_quality_node }

/-- The loop of `getQualityGroups` lines 126-131: one `QualityGroup` per
entry of `machine_node.global_qualities`, in order. -/
def buildQualityGroups (qualities_per_type_per_extruder : PyDict (PyDict QualityNode)) :
    PyDict QualityNode → PyDict QualityGroup → Except PyErr (PyDict QualityGroup)
  | [], quality_groups => Except.ok quality_groups
  | (quality_type, global_quality_node) :: rest, quality_groups =>
    match qualityGroupExtruderLoop qualities_per_type_per_extruder quality_type
        (initialQualityGroup quality_type global_quality_node) with
    | Except.error e => Except.error e
    | Except.ok group =>
      buildQualityGroups qualities_per_type_per_extruder rest (quality_groups.set quality_type group)

/-- The loop of `getQualityGroups` lines 133-137: intersect the key set of
`quality_groups` with each enabled extruder's quality types. -/
def intersectAvailable (extruders : PyDict Extruder) :
    PyDict (PyDict QualityNode) → List String → Except PyErr (List String)
  | [], available_quality_types => Except.ok available_quality_types
  | (extruder_nr, qualities_per_type) :: rest, available_quality_types =>
    match pyIndex extruders extruder_nr with
    | Except.error e => Except.error e
    | Except.ok extruder =>
      if !extruder.isEnabled then intersectAvailable extruders rest available_quality_types
      else
        let filtered := available_quality_types.filter (fun qt => qualities_per_type.hasKey qt)
        intersectAvailable extruders rest filtered

/-- The loop of `getQualityGroups` lines 138-139: set `is_available` on
every group whose quality type survived the intersection. -/
def markAvailable (available_quality_types : List String)
    (quality_groups : PyDict QualityGroup) : PyDict QualityGroup :=
  quality_groups.map
    (fun p => if available_quality_types.contains p.1
      then (p.1, { p.2 with is_available := true }) else p)

/-- Embedding of `QualityManager.getQualityGroups` (lines 107-140),
including the buggy dictionary iteration of line 130; exceptions propagate
to the caller as in Python. -/
def getQualityGroups (machines : PyDict MachineNode) (global_stack : GlobalStack) :
    Except PyErr (PyDict QualityGroup) :=
  match pyIndex machines global_stack.definitionId with
  | Except.error e => Except.error e
  | Except.ok machine_node =>
    let qualities_per_type_per_extruder :=
      qualitiesPerTypePerExtruder machine_node global_stack.extruders
    match buildQualityGroups qualities_per_type_per_extruder machine_node.global_qualities [] with
    | Except.error e => Except.error e
    | Except.ok quality_groups =>
      match intersectAvailable global_stack.extruders qualities_per_type_per_extruder
          quality_groups.keys with
      | Except.error e => Except.error e
      | Except.ok available_quality_types =>
        Except.ok (markAvailable available_quality_types quality_groups)

/-- Embedding of `QualityManager.getDefaultQualityType` (lines 165-169);
`dict.get(None)` in Python is `None`, hence the `Option.bind`. -/
def getDefaultQualityType (machines : PyDict MachineNode) (machine : GlobalStack) :
    Except PyErr (Option QualityGroup) :=
  let preferred_quality_type := machine.definitionMetadata.get? "preferred_quality_type"
  match getQualityGroups machines machine with
  | Except.error e => Except.error e
  | Except.ok quality_group_dict =>
    Except.ok (preferred_quality_type.bind (fun t => quality_group_dict.get? t))

/-! Concrete fixtures used to evaluate the quality manager at specific
machine configurations. -/

/-- Quality node carrying only a display name. -/
def qnNamed (n : String) : QualityNode := { metadata := [("name", n)] }

/-- A machine with global quality types draft, normal and fine, one nozzle
`AA 0.4`, a material `generic_pla` whose specialised qualities are
normal and fine, and a material `pla_no_normal` offering only fine. -/
def machineNodeX : MachineNode :=
  { variants := [("AA 0.4",
      { materials :=
          [("generic_pla",
             { qualities := [("normal", qnNamed "Normal"), ("fine", qnNamed "Fine")] }),
           ("pla_no_normal",
             { qualities := [("fine", qnNamed "Fine")] })] })],
    global_qualities :=
      [("draft", qnNamed "Draft"), ("normal", qnNamed "Normal"), ("fine", qnNamed "Fine")] }

/-- The container tree holding only `machineNodeX`. -/
def machinesX : PyDict MachineNode := [("machine_x", machineNodeX)]

/-- Extruder on the known nozzle/material pair. -/
def extruderPLA (enabled : Bool) : Extruder :=
  { isEnabled := enabled, variantName := "AA 0.4", materialBaseFile := some "generic_pla" }

/-- Extruder whose material quality map lacks the normal type. -/
def extruderNoNormal (enabled : Bool) : Extruder :=
  { isEnabled := enabled, variantName := "AA 0.4", materialBaseFile := some "pla_no_normal" }

/-- Stack with a single enabled extruder. -/
def stackOneEnabled : GlobalStack :=
  { definitionId := "machine_x",
    definitionMetadata := [("preferred_quality_type", "normal")],
    extruders := [("0", extruderPLA true)] }

/-- Stack with a single disabled extruder. -/
def stackOneDisabled : GlobalStack :=
  { definitionId := "machine_x",
    definitionMetadata := [("preferred_quality_type", "normal")],
    extruders := [("0", extruderPLA false)] }

/-- Two enabled extruders, both of whose materials offer the normal type. -/
def stackTwoBothNormal : GlobalStack :=
  { definitionId := "machine_x",
    definitionMetadata := [("preferred_quality_type", "normal")],
    extruders := [("0", extruderPLA true), ("1", extruderPLA true)] }

/-- Two enabled extruders; extruder 1's material quality set lacks normal. -/
def stackTwoNoNormal : GlobalStack :=
  { definitionId := "machine_x",
    definitionMetadata := [("preferred_quality_type", "normal")],
    extruders := [("0", extruderPLA true), ("1", extruderNoNormal true)] }

/-- Extruder 0 held fixed (disabled); extruder 1 toggled by the argument. -/
def stackToggleOne (enabled : Bool) : GlobalStack :=
  { definitionId := "machine_x",
    definitionMetadata := [("preferred_quality_type", "normal")],
    extruders := [("0", extruderPLA false), ("1", extruderPLA enabled)] }

/-- The quality-group dictionary `getQualityGroups` returns for
`machineNodeX` when no extruder is enabled: every global type available. -/
def groupsAllAvailableX : PyDict QualityGroup :=
  [("draft", { name := "Draft", quality_type := "draft",
               node_for_global := some (qnNamed "Draft"), is_available := true }),
   ("normal", { name := "Normal", quality_type := "normal",
                node_for_global := some (qnNamed "Normal"), is_available := true }),
   ("fine", { name := "Fine", quality_type := "fine",
              node_for_global := some (qnNamed "Fine"), is_available := true })]

/-! Quality-changes group operations (`QualityManager.removeQualityChangesGroup`,
`QualityManager.renameQualityChangesGroup`). -/

/-- An instance container as the quality-changes operations see it:
its id and its user-visible name (`setName` mutates the name). -/
structure QCContainer where
  id : String
  name : String
  deriving DecidableEq, Repr

/-- A node of a quality-changes group (`getAllNodes()` element): metadata
carrying the container id, and the container reference, possibly absent. -/
structure ContainerNode where
  metadata : PyDict String
  container : Option QCContainer
  deriving DecidableEq, Repr

/-- A quality-changes group: the user-chosen name plus all its nodes. -/
structure QualityChangesGroup where
  name : String
  nodes : List ContainerNode
  deriving DecidableEq, Repr

/-- A container stack as the registry returns it: its type metadata
(`"machine"` or `"extruder_train"`) and its `qualityChanges` reference,
modelled by the referenced container's id. -/
structure Stack where
  stype : String
  qualityChangesId : String
  deriving DecidableEq, Repr

/-- Registry state the quality-changes removal operates on. -/
structure QCRegistryState where
  containers : List QCContainer
  stackList : List Stack
  deriving DecidableEq, Repr

/-- The ids collected into `removed_quality_changes_ids`
(`removeQualityChangesGroup` lines 183-186); a node's metadata may lack
the id entry, adding Python `None` to the set. -/
def removedQualityChangesIds (group : QualityChangesGroup) : List (Option String) :=
  group.nodes.map (fun node => PyDict.get? node.metadata "id")

/-- The registry's `removeContainer`: deletes the container with the given
id; called with `None` (or an unknown id) it only logs and removes nothing. -/
def removeContainer (containers : List QCContainer) (container_id : Option String) :
    List QCContainer :=
  match container_id with
  | none => containers
  | some i => containers.filter (fun c => !(c.id == i))

/-- One pass of the stack-reset loops (lines 189-194): a stack of the
given registry type whose `qualityChanges` id is in the removed set gets
its reference replaced by the empty sentinel. -/
def resetIfRemoved (empty_quality_changes_id : String) (removed : List (Option String))
    (stack_type : String) (s : Stack) : Stack :=
  if s.stype = stack_type ∧ some s.qualityChangesId ∈ removed
  then { s with qualityChangesId := empty_quality_changes_id } else s

/-- Embedding of `QualityManager.removeQualityChangesGroup` (lines 180-194):
remove every container of the group from the registry, then reset every
machine stack and every extruder stack whose `qualityChanges` id was
removed to the empty quality-changes sentinel. -/
def removeQualityChangesGroup (empty_quality_changes_id : String)
    (quality_changes_group : QualityChangesGroup) (st : QCRegistryState) : QCRegistryState :=
  let removed := removedQualityChangesIds quality_changes_group
  let containers := quality_changes_group.nodes.foldl
    (fun cs node => removeContainer cs (PyDict.get? node.metadata "id")) st.containers
  let stacks1 := st.stackList.map (resetIfRemoved empty_quality_changes_id removed "machine")
  let stacks2 := stacks1.map (resetIfRemoved empty_quality_changes_id removed "extruder_train")
  { containers := containers, stackList := stacks2 }

/-- Result of `renameQualityChangesGroup`: the returned name, the group
after the call, how often the name-uniqueness service was consulted, and
how many quality-changed signals were emitted. -/
structure RenameResult where
  returned_name : String
  group : QualityChangesGroup
  unique_name_calls : Nat
  signals_emitted : Nat
  deriving DecidableEq, Repr

/-- Container `setName`. -/
def QCContainer.setName (c : QCContainer) (n : String) : QCContainer :=
  { c with name := n }

/-- Embedding of `QualityManager.renameQualityChangesGroup` (lines 200-218):
early return when the new name equals the current one; otherwise consult
the uniqueness service once, rename every node's container, set the group
name and emit the two quality-changed signals. -/
def renameQualityChangesGroup (uniqueName : String → String)
    (quality_changes_group : QualityChangesGroup) (new_name : String) : RenameResult :=
  if new_name = quality_changes_group.name then
    { returned_name := new_name, group := quality_changes_group,
      unique_name_calls := 0, signals_emitted := 0 }
  else
    let unique := uniqueName new_name
    let nodes := quality_changes_group.nodes.map (fun node =>
      match node.container with
      | some container => { node with container := some (container.setName unique) }
      | none => node)
    { returned_name := unique,
      group := { name := unique, nodes := nodes },
      unique_name_calls := 1, signals_emitted := 2 }

/-! Fixtures for the machine-definition and quality-changes claims. -/

/-- A machine definition with machine quality and a quality_definition
override, like the Ultimaker 3 Extended. -/
def defWithOverride : MachineDefinition :=
  { id := "ultimaker3_extended",
    metadata := [("has_machine_quality", "true"), ("quality_definition", "ultimaker3")] }

/-- A quality-changes group with a global and one extruder container. -/
def groupG : QualityChangesGroup :=
  { name := "My Profile",
    nodes := [{ metadata := [("id", "machine_x_my_profile")],
                container := some { id := "machine_x_my_profile", name := "My Profile" } },
              { metadata := [("id", "extruder_0_my_profile")],
                container := some { id := "extruder_0_my_profile", name := "My Profile" } }] }

/-- A registry state in which `groupG` is active on both stacks. -/
def stateG : QCRegistryState :=
  { containers := [{ id := "machine_x_my_profile", name := "My Profile" },
                   { id := "extruder_0_my_profile", name := "My Profile" },
                   { id := "some_quality", name := "Fine" }],
    stackList := [{ stype := "machine", qualityChangesId := "machine_x_my_profile" },
               { stype := "extruder_train", qualityChangesId := "extruder_0_my_profile" }] }

/-! MaterialManager (`cura/Machines/MaterialManager.py`).  In this revision
of the file the lookup maps (`_material_group_map`, `_fallback_materials_map`,
`_diameter_material_map`) are initialised empty and the container-change
handler only starts the debounce timer, whose timeout merely emits the
`materialsUpdated` signal; no code of the file writes the maps. -/

/-- A generic instance container: a metadata dictionary. -/
structure Container where
  metadata : PyDict String
  deriving DecidableEq, Repr

/-- The container's id (`getId()`), stored in its metadata. -/
def containerId (c : Container) : String :=
  (PyDict.get? c.metadata "id").getD ""

/-- Registry query `findContainers(id = i)`. -/
def findContainersById (registry : List Container) (i : String) : List Container :=
  registry.filter (fun c => PyDict.get? c.metadata "id" == some i)

/-- Registry query `findContainers(base_file = b)`. -/
def findContainersByBaseFile (registry : List Container) (b : String) : List Container :=
  registry.filter (fun c => PyDict.get? c.metadata "base_file" == some b)

/-- The registry's `addContainer`: refuses a container whose id is already
present, otherwise appends it. -/
def addContainer (registry : List Container) (container : Container) : List Container :=
  if registry.any (fun c => containerId c == containerId container) then registry
  else registry ++ [container]

/-- The `MaterialGroup` aggregate (`cura/Machines/MaterialGroup.py`, not
under the sources given; only its identity matters here). -/
structure MaterialGroup where
  name : String
  deriving DecidableEq, Repr

/-- State of a `MaterialManager` instance: the shared container registry
plus the manager's lookup maps and favorites. -/
structure MaterialManagerState where
  registry : List Container
  material_group_map : PyDict MaterialGroup
  fallback_materials_map : PyDict (PyDict String)
  diameter_material_map : PyDict String
  favorites : List String
  deriving DecidableEq, Repr

/-- Embedding of `MaterialManager.getMaterialGroup` (lines 93-94). -/
def getMaterialGroup (st : MaterialManagerState) (root_material_id : String) :
    Option MaterialGroup :=
  PyDict.get? st.material_group_map root_material_id

/-- Embedding of `MaterialManager.getRootMaterialIDWithoutDiameter`
(lines 107-108): a plain lookup in `_diameter_material_map` defaulting to
the empty string. -/
def getRootMaterialIDWithoutDiameter (st : MaterialManagerState)
    (root_material_id : String) : String :=
  (PyDict.get? st.diameter_material_map root_material_id).getD ""

/-- Embedding of `MaterialManager.getFallbackMaterialIdByMaterialType`
(lines 213-222).  The boolean records whether the warning for an
unregistered material type was logged; a registered but falsy (empty)
metadata entry yields `None` without the warning; indexing a truthy entry
without an `"id"` key would raise `KeyError`. -/
def getFallbackMaterialIdByMaterialType (st : MaterialManagerState)
    (material_type : String) : Except PyErr (Option String × Bool) :=
  match PyDict.get? st.fallback_materials_map material_type with
  | none => Except.ok (none, true)
  | some fallback_material =>
    if fallback_material = [] then Except.ok (none, false)
    else
      match PyDict.get? fallback_material "id" with
      | none => Except.error PyErr.keyError
      | some i => Except.ok (some (getRootMaterialIDWithoutDiameter st i), false)

/-- Material-type metadata (`"material"` entry) of the container registered
under the given id. -/
def materialTypeOfId (st : MaterialManagerState) (i : String) : Option String :=
  match findContainersById st.registry i with
  | [] => none
  | c :: _ => PyDict.get? c.metadata "material"

/-- Modelled from the spec: the map-population step of `MaterialManager`
(the "update the maps" rebuild, absent from this revision of the file)
registers under each material type a truthy generic-material metadata
entry whose id the diameter map sends to a root material id of that same
material type (spec sections 3 and 4.2). -/
def FallbackMapsWellFormed (st : MaterialManagerState) : Prop :=
  ∀ T fm, PyDict.get? st.fallback_materials_map T = some fm →
    fm ≠ [] ∧ ∃ i, PyDict.get? fm "id" = some i ∧
      ∃ r, PyDict.get? st.diameter_material_map i = some r ∧
        materialTypeOfId st r = some T

/-- Application of a `new_metadata` override dictionary onto a copied
container's metadata (`for key, value in new_metadata.items(): ...`). -/
def applyNewMetadata (md overrides : PyDict String) : PyDict String :=
  overrides.foldl (fun acc p => acc.set p.1 p.2) md

/-- Id computation for a cloned derivative (`duplicateMaterialByRootId`
lines 320-325): suffix the definition id unless it is `"fdmprinter"`, then
the variant name with spaces replaced; a derivative without `"definition"`
metadata makes Python concatenate `None`, a `TypeError`. -/
def deriveCopyId (new_base_id : String) (container_to_copy : Container) :
    Except PyErr String :=
  match PyDict.get? container_to_copy.metadata "definition" with
  | none => Except.error PyErr.typeError
  | some definition =>
    if definition == "fdmprinter" then Except.ok new_base_id
    else
      let new_id := new_base_id ++ "_" ++ definition
      match PyDict.get? container_to_copy.metadata "variant_name" with
      | some nozzle_name =>
        if nozzle_name = "" then Except.ok new_id
        else Except.ok (new_id ++ "_" ++ (nozzle_name.replace " " "_"))
      | none => Except.ok new_id

/-- The clone loop of `duplicateMaterialByRootId` (lines 317-333): deep-copy
every container sharing the source's `base_file`, skipping the root itself,
with fresh id, new `base_file` and the metadata overrides applied. -/
def cloneDerivatives (new_base_id : String) (overrides : PyDict String)
    (root_material_id : String) : List Container → Except PyErr (List Container)
  | [] => Except.ok []
  | container_to_copy :: rest =>
    if containerId container_to_copy == root_material_id then
      cloneDerivatives new_base_id overrides root_material_id rest
    else
      match deriveCopyId new_base_id container_to_copy with
      | Except.error e => Except.error e
      | Except.ok new_id =>
        match cloneDerivatives new_base_id overrides root_material_id rest with
        | Except.error e => Except.error e
        | Except.ok tail =>
          let md := applyNewMetadata
            ((container_to_copy.metadata.set "id" new_id).set "base_file" new_base_id)
            overrides
          Except.ok ({ metadata := md } :: tail)

/-- The fresh copy of the root container (`duplicateMaterialByRootId`
lines 308-314): deep copy, new id and `base_file`, overrides applied. -/
def baseCopyContainer (base_container : Container) (new_base_id : String)
    (overrides : PyDict String) : Container :=
  { metadata := applyNewMetadata
      ((base_container.metadata.set "id" new_base_id).set "base_file" new_base_id)
      overrides }

/-- Result of `duplicateMaterialByRootId`: the returned root id, the state
after the call, and the argument of the external
`MaterialManagementModel.addFavorite` call when one was made. -/
structure DuplicateResult where
  new_root_id : Option String
  state : MaterialManagerState
  favorite_added : Option String
  deriving DecidableEq, Repr

/-- Embedding of `MaterialManager.duplicateMaterialByRootId` (lines
290-343).  The name-uniqueness service is the injected external
collaborator of spec section 6. -/
def duplicateMaterialByRootId (uniqueName : String → String) (st : MaterialManagerState)
    (root_material_id : String) (new_base_id_arg : Option String)
    (new_metadata : Option (PyDict String)) : Except PyErr DuplicateResult :=
  match findContainersById st.registry root_material_id with
  | [] => Except.ok { new_root_id := none, state := st, favorite_added := none }
  | base_container :: _ =>
    let new_base_id := match new_base_id_arg with
      | some b => b
      | none => uniqueName (containerId base_container)
    let overrides := new_metadata.getD []
    let new_base_container := baseCopyContainer base_container new_base_id overrides
    match cloneDerivatives new_base_id overrides root_material_id
        (findContainersByBaseFile st.registry root_material_id) with
    | Except.error e => Except.error e
    | Except.ok cloned =>
      let new_containers := new_base_container :: cloned
      let registry2 := new_containers.foldl addContainer st.registry
      Except.ok { new_root_id := some new_base_id,
                  state := { st with registry := registry2 },
                  favorite_added := if st.favorites.contains root_material_id
                                    then some new_base_id else none }

/-! IntentManager (`cura/Settings/IntentManager.py`). -/

/-- A used extruder stack as `selectIntent` reads and writes it: the
variant-name and material-base-file metadata and the intent reference. -/
structure UsedExtruder where
  variantName : Option String
  materialBaseFile : Option String
  intent : Option Container
  deriving DecidableEq, Repr

/-- Metadata filter of the `findContainers` call in `selectIntent`
(line 128); an absent metadata entry compares equal to an absent filter
value, as Python `None` does. -/
def intentMatches (definition variant material : Option String)
    (quality_type intent_category : String) (c : Container) : Bool :=
  PyDict.get? c.metadata "definition" == definition &&
  PyDict.get? c.metadata "variant" == variant &&
  PyDict.get? c.metadata "material" == material &&
  PyDict.get? c.metadata "quality_type" == some quality_type &&
  PyDict.get? c.metadata "intent_category" == some intent_category

/-- The registry query of `selectIntent` line 128. -/
def findIntentContainers (registry : List Container)
    (definition variant material : Option String)
    (quality_type intent_category : String) : List Container :=
  registry.filter (intentMatches definition variant material quality_type intent_category)

/-- Result of `selectIntent`: the used extruders after assignment and
whether `setQualityGroupByQualityType` was invoked at the end. -/
structure IntentSelectionResult where
  extruders : List UsedExtruder
  quality_group_set : Bool
  deriving DecidableEq, Repr

/-- Embedding of `IntentManager.selectIntent` (lines 119-134): without a
global stack the call returns untouched; otherwise every used extruder's
intent is set to the first matching intent container, or to the neutral
empty-intent sentinel when none matches. -/
def selectIntent (registry : List Container) (empty_intent : Container)
    (global_stack : Option GlobalStack) (used_extruder_stacks : List UsedExtruder)
    (intent_category quality_type : String) : IntentSelectionResult :=
  match global_stack with
  | none => { extruders := used_extruder_stacks, quality_group_set := false }
  | some gs =>
    let current_definition_id := PyDict.get? gs.definitionMetadata "id"
    { extruders := used_extruder_stacks.map (fun extruder_stack =>
        match findIntentContainers registry current_definition_id
            extruder_stack.variantName extruder_stack.materialBaseFile
            quality_type intent_category with
        | intent0 :: _ => { extruder_stack with intent := some intent0 }
        | [] => { extruder_stack with intent := some empty_intent }),
      quality_group_set := true }

/-! Fixtures for the material-manager and intent-manager claims. -/

/-- Registry with the root `generic_pla` material and one machine-variant
derivative. -/
def registryPLA : List Container :=
  [{ metadata := [("id", "generic_pla"), ("base_file", "generic_pla"),
                  ("type", "material"), ("brand", "Generic"), ("material", "PLA"),
                  ("color_name", "White"), ("GUID", "guid-pla"),
                  ("definition", "fdmprinter")] },
   { metadata := [("id", "generic_pla_machine_x"), ("base_file", "generic_pla"),
                  ("type", "material"), ("brand", "Generic"), ("material", "PLA"),
                  ("color_name", "White"), ("GUID", "guid-pla"),
                  ("definition", "machine_x")] }]

/-- Material-manager state over `registryPLA`; the lookup maps hold what the
(absent) rebuild would have produced for the favorites-free manager, with
the group map keyed by the existing root id only. -/
def statePLA : MaterialManagerState :=
  { registry := registryPLA,
    material_group_map := [("generic_pla", { name := "generic_pla" })],
    fallback_materials_map := [("PLA", [("id", "generic_pla_175")])],
    diameter_material_map := [("generic_pla_175", "generic_pla")],
    favorites := [] }

/-- Name-uniqueness service used in concrete runs: append a counter tag. -/
def uniqTag (s : String) : String := s ++ " #2"

/-- The root material container of `registryPLA`. -/
def basePLA : Container :=
  { metadata := [("id", "generic_pla"), ("base_file", "generic_pla"),
                 ("type", "material"), ("brand", "Generic"), ("material", "PLA"),
                 ("color_name", "White"), ("GUID", "guid-pla"),
                 ("definition", "fdmprinter")] }

/-- One intent container for the engineering category on normal quality. -/
def intentEng : Container :=
  { metadata := [("id", "um3_aa04_pla_engineering_normal"), ("definition", "machine_x"),
                 ("variant", "AA 0.4"), ("material", "generic_pla"),
                 ("quality_type", "normal"), ("intent_category", "engineering")] }

/-- The empty-intent sentinel container. -/
def emptyIntent : Container := { metadata := [("id", "empty_intent")] }

/-- Global stack whose definition metadata id is `machine_x`. -/
def gsIntent : GlobalStack :=
  { definitionId := "machine_x", definitionMetadata := [("id", "machine_x")],
    extruders := [] }

/-- Two used extruders: one matching `intentEng`, one on another material. -/
def usedIntent : List UsedExtruder :=
  [{ variantName := some "AA 0.4", materialBaseFile := some "generic_pla", intent := none },
   { variantName := some "AA 0.4", materialBaseFile := some "generic_abs", intent := none }]

/-! Dictionary lemmas. -/

theorem PyDict.get?_cons {α : Type} (k' : String) (v : α) (rest : PyDict α) (k : String) :
    PyDict.get? ((k', v) :: rest) k = if k' == k then some v else rest.get? k := by
  by_cases h : k' == k <;> simp [PyDict.get?, List.find?, h]

theorem PyDict.get?_set_self {α : Type} (d : PyDict α) (k : String) (v : α) :
    (d.set k v).get? k = some v := by
  induction d with
  | nil => simp [PyDict.set, PyDict.get?, List.find?]
  | cons p rest ih =>
    obtain ⟨k', v'⟩ := p
    by_cases h : k' == k
    · simp [PyDict.set, h, PyDict.get?_cons]
    · simp [PyDict.set, h, PyDict.get?_cons, ih]

theorem PyDict.get?_set_ne {α : Type} (d : PyDict α) (k k' : String) (v : α)
    (h : k' ≠ k) : (d.set k v).get? k' = d.get? k' := by
  have hbk : (k == k') = false := by
    simp [beq_iff_eq]
    exact fun hk => h hk.symm
  induction d with
  | nil => simp [PyDict.set, PyDict.get?_cons, hbk, PyDict.get?]
  | cons p rest ih =>
    obtain ⟨k0, v0⟩ := p
    by_cases h0 : k0 == k
    · have hk0 : k0 = k := by simpa [beq_iff_eq] using h0
      subst hk0
      simp [PyDict.set, PyDict.get?_cons, hbk]
    · simp [PyDict.set, h0, PyDict.get?_cons, ih]

theorem PyDict.hasKey_eq_isSome {α : Type} (d : PyDict α) (k : String) :
    d.hasKey k = (d.get? k).isSome := by
  induction d with
  | nil => simp [PyDict.hasKey, PyDict.get?]
  | cons p rest ih =>
    obtain ⟨k', v⟩ := p
    by_cases h : k' == k
    · simp [PyDict.hasKey, PyDict.get?_cons, h]
    · simp [PyDict.hasKey, PyDict.get?_cons, h]
      simpa [PyDict.hasKey] using ih

theorem PyDict.get?_eq_none_of_not_mem_keys {α : Type} (d : PyDict α) (k : String)
    (h : k ∉ d.keys) : d.get? k = none := by
  induction d with
  | nil => simp [PyDict.get?]
  | cons p rest ih =>
    obtain ⟨k', v⟩ := p
    simp [PyDict.keys] at h
    push_neg at h
    have hne : (k' == k) = false := by simp [beq_iff_eq]; exact fun hk => h.1 hk.symm
    rw [PyDict.get?_cons, hne]
    simp [ih (by simpa [PyDict.keys] using h.2)]

/-! Lemmas about the quality-group construction loops. -/

theorem markAvailable_cons (a : List String) (k : String) (g : QualityGroup)
    (rest : PyDict QualityGroup) :
    markAvailable a ((k, g) :: rest) =
      (if a.contains k then (k, { g with is_available := true }) else (k, g)) ::
        markAvailable a rest := by
  by_cases hc : a.contains k <;> simp [markAvailable, hc]

theorem markAvailable_get? (a : List String) (qgs : PyDict QualityGroup) (k : String) :
    (markAvailable a qgs).get? k =
      (qgs.get? k).map (fun g => if a.contains k then { g with is_available := true } else g) := by
  induction qgs with
  | nil => simp [markAvailable, PyDict.get?]
  | cons p rest ih =>
    obtain ⟨k', g⟩ := p
    rw [markAvailable_cons]
    by_cases hk : k' == k
    · have hkk : k' = k := by simpa [beq_iff_eq] using hk
      subst hkk
      by_cases hc : k' ∈ a <;> simp [hc, PyDict.get?_cons]
    · by_cases hc : k' ∈ a <;> simp [hc, PyDict.get?_cons, hk, ih]

theorem qualityGroupExtruderLoop_ok {qpe : PyDict (PyDict QualityNode)} {qt : String}
    {g g' : QualityGroup} (h : qualityGroupExtruderLoop qpe qt g = Except.ok g') : g' = g := by
  cases qpe with
  | nil =>
    simp [qualityGroupExtruderLoop] at h
    exact h.symm
  | cons p rest =>
    obtain ⟨key, q⟩ := p
    simp only [qualityGroupExtruderLoop] at h
    cases hu : pyUnpack2 key with
    | error e => rw [hu] at h; simp at h
    | ok pr =>
      obtain ⟨ex, qpt⟩ := pr
      rw [hu] at h
      simp [strSubscript] at h

theorem buildQualityGroups_ok_get? (qpe : PyDict (PyDict QualityNode)) (gq : PyDict QualityNode) :
    ∀ (acc qgs : PyDict QualityGroup),
    buildQualityGroups qpe gq acc = Except.ok qgs →
    gq.keys.Nodup →
    ∀ qt,
      (gq.get? qt = none → qgs.get? qt = acc.get? qt) ∧
      (∀ n, gq.get? qt = some n → ∃ g, qgs.get? qt = some g ∧
        g.node_for_global = some n ∧ g.quality_type = qt) := by
  induction gq with
  | nil =>
    intro acc qgs h _ qt
    simp [buildQualityGroups] at h
    subst h
    exact ⟨fun _ => rfl, fun n hn => by simp [PyDict.get?] at hn⟩
  | cons p rest ih =>
    obtain ⟨qt0, n0⟩ := p
    intro acc qgs h hnd qt
    simp only [buildQualityGroups] at h
    cases hloop : qualityGroupExtruderLoop qpe qt0 (initialQualityGroup qt0 n0) with
    | error e => rw [hloop] at h; simp at h
    | ok g0 =>
      rw [hloop] at h
      have hg0 : g0 = initialQualityGroup qt0 n0 := qualityGroupExtruderLoop_ok hloop
      have hnd' : (PyDict.keys rest).Nodup ∧ qt0 ∉ PyDict.keys rest := by
        have := hnd
        simp [PyDict.keys] at this ⊢
        exact ⟨this.2, this.1⟩
      have IH := ih (acc.set qt0 g0) qgs h hnd'.1 qt
      by_cases hk : qt0 = qt
      · subst hk
        refine ⟨?_, ?_⟩
        · intro hnone
          rw [PyDict.get?_cons] at hnone
          simp at hnone
        · intro n hn
          rw [PyDict.get?_cons] at hn
          simp at hn
          have hrest : PyDict.get? rest qt0 = none :=
            PyDict.get?_eq_none_of_not_mem_keys rest qt0 hnd'.2
          have hq := IH.1 hrest
          refine ⟨g0, ?_, ?_, ?_⟩
          · rw [hq, PyDict.get?_set_self]
          · rw [hg0, ← hn]; rfl
          · rw [hg0]; rfl
      · have hcons : (PyDict.get? ((qt0, n0) :: rest) qt) = PyDict.get? rest qt := by
          rw [PyDict.get?_cons]
          simp [beq_iff_eq, hk]
        refine ⟨?_, ?_⟩
        · intro hnone
          rw [hcons] at hnone
          have hq := IH.1 hnone
          rw [hq, PyDict.get?_set_ne]
          exact fun he => hk he.symm
        · intro n hn
          rw [hcons] at hn
          exact IH.2 n hn

/-! Claim theorems about the quality manager. -/

/-- Claim C1: the claim states that `getQualityGroups` marks a quality type
available iff it is present in every enabled extruder's effective quality
source.  The code instead raises `ValueError` on every configuration with
at least one enabled extruder and a nonempty global quality map, because
line 130 iterates `qualities_per_type_per_extruder` without `.items()`;
only the zero-enabled-extruders edge case returns, with every global type
available as the claim says. -/
theorem c1_intersection_claim_hits_dict_iteration_bug :
    getQualityGroups machinesX stackOneEnabled = Except.error PyErr.valueError ∧
    getQualityGroups machinesX stackOneDisabled = Except.ok groupsAllAvailableX := by
  constructor <;> rfl

/-- Claim C2: the claim states that with `preferred_quality_type = "normal"`,
`getDefaultQualityType` resolves to the normal group when "normal" is in
the intersection and to `None` when extruder 1's material lacks normal.
Both configurations of the scenario have enabled extruders, so the call
raises `ValueError` through `getQualityGroups` instead of returning. -/
theorem c2_default_quality_type_hits_dict_iteration_bug :
    getDefaultQualityType machinesX stackTwoBothNormal = Except.error PyErr.valueError ∧
    getDefaultQualityType machinesX stackTwoNoNormal = Except.error PyErr.valueError := by
  constructor <;> rfl

/-- Claim C3: the claim states that disabling extruder 1 (other extruders fixed)
never shrinks the available set.  With extruder 1 disabled the call
returns all three global types available; with extruder 1 enabled the call
raises `ValueError` instead of returning any set at all. -/
theorem c3_disabling_monotonicity_hits_dict_iteration_bug :
    getQualityGroups machinesX (stackToggleOne false) = Except.ok groupsAllAvailableX ∧
    getQualityGroups machinesX (stackToggleOne true) = Except.error PyErr.valueError := by
  constructor <;> rfl

/-- Claim C10: whenever `getQualityGroups` returns a dictionary, its key set is
exactly the key set of the machine node's `global_qualities`, and each
returned group's `node_for_global` is the machine's global quality node
for that quality type. -/
theorem c10_returned_keys_are_global_quality_types
    (machines : PyDict MachineNode) (gs : GlobalStack) (machine_node : MachineNode)
    (d : PyDict QualityGroup)
    (hm : machines.get? gs.definitionId = some machine_node)
    (hnd : machine_node.global_qualities.keys.Nodup)
    (h : getQualityGroups machines gs = Except.ok d) :
    ∀ qt, (d.hasKey qt ↔ machine_node.global_qualities.hasKey qt) ∧
      (∀ n, machine_node.global_qualities.get? qt = some n →
        ∃ g, d.get? qt = some g ∧ g.node_for_global = some n) := by
  unfold getQualityGroups at h
  rw [show pyIndex machines gs.definitionId = Except.ok machine_node from by
    simp [pyIndex, hm]] at h
  dsimp only at h
  cases hb : buildQualityGroups (qualitiesPerTypePerExtruder machine_node gs.extruders)
      machine_node.global_qualities [] with
  | error e => rw [hb] at h; simp at h
  | ok qgs =>
    rw [hb] at h
    dsimp only at h
    cases hi : intersectAvailable gs.extruders
        (qualitiesPerTypePerExtruder machine_node gs.extruders) qgs.keys with
    | error e => rw [hi] at h; simp at h
    | ok avail =>
      rw [hi] at h
      simp at h
      subst h
      intro qt
      have hbuild := buildQualityGroups_ok_get?
        (qualitiesPerTypePerExtruder machine_node gs.extruders)
        machine_node.global_qualities [] qgs hb hnd qt
      constructor
      · rw [PyDict.hasKey_eq_isSome, PyDict.hasKey_eq_isSome, markAvailable_get?]
        cases hgq : machine_node.global_qualities.get? qt with
        | none =>
          have := hbuild.1 hgq
          rw [this]
          simp [PyDict.get?]
        | some n =>
          obtain ⟨g, hg, _, _⟩ := hbuild.2 n hgq
          rw [hg]
          simp
      · intro n hn
        obtain ⟨g, hg, hglob, _⟩ := hbuild.2 n hn
        rw [markAvailable_get?, hg]
        by_cases hc : qt ∈ avail
        · exact ⟨{ g with is_available := true }, by simp [hc], by simpa using hglob⟩
        · exact ⟨g, by simp [hc], hglob⟩

/-- Witness for C10 at a concrete configuration with a disabled extruder,
where `getQualityGroups` returns. -/
theorem c10_returned_keys_witness :
    (groupsAllAvailableX.hasKey "normal" ↔ machineNodeX.global_qualities.hasKey "normal") ∧
    (∃ g, groupsAllAvailableX.get? "normal" = some g ∧
      g.node_for_global = some (qnNamed "Normal")) :=
  ⟨(c10_returned_keys_are_global_quality_types machinesX stackOneDisabled machineNodeX
      groupsAllAvailableX rfl (by decide) rfl "normal").1,
   (c10_returned_keys_are_global_quality_types machinesX stackOneDisabled machineNodeX
      groupsAllAvailableX rfl (by decide) rfl "normal").2 (qnNamed "Normal") rfl⟩

/-! Lemmas about container removal. -/

theorem mem_of_mem_removeContainer {cs : List QCContainer} {o : Option String}
    {c : QCContainer} (h : c ∈ removeContainer cs o) : c ∈ cs := by
  cases o with
  | none => exact h
  | some i => exact List.mem_of_mem_filter h

theorem removeContainer_id_ne {cs : List QCContainer} {i : String} {c : QCContainer}
    (h : c ∈ removeContainer cs (some i)) : c.id ≠ i := by
  have := List.of_mem_filter h
  simpa using this

theorem foldl_removeContainer_preserves (g : ContainerNode → Option String) (i : String) :
    ∀ (nodes : List ContainerNode) (cs : List QCContainer),
    (∀ c ∈ cs, c.id ≠ i) →
    ∀ c ∈ nodes.foldl (fun cs node => removeContainer cs (g node)) cs, c.id ≠ i := by
  intro nodes
  induction nodes with
  | nil => intro cs h c hc; exact h c hc
  | cons n rest ih =>
    intro cs h c hc
    exact ih (removeContainer cs (g n))
      (fun c' hc' => h c' (mem_of_mem_removeContainer hc')) c hc

theorem foldl_removeContainer_removes (g : ContainerNode → Option String) (i : String) :
    ∀ (nodes : List ContainerNode) (cs : List QCContainer) (n : ContainerNode),
    n ∈ nodes → g n = some i →
    ∀ c ∈ nodes.foldl (fun cs node => removeContainer cs (g node)) cs, c.id ≠ i := by
  intro nodes
  induction nodes with
  | nil => intro cs n hn; simp at hn
  | cons n0 rest ih =>
    intro cs n hn hg c hc
    rcases List.mem_cons.mp hn with h0 | hr
    · subst h0
      refine foldl_removeContainer_preserves g i rest (removeContainer cs (g n)) ?_ c hc
      intro c' hc'
      rw [hg] at hc'
      exact removeContainer_id_ne hc'
    · exact ih (removeContainer cs (g n0)) n hr hg c hc

/-! Claim theorems about the quality-changes operations and the
machine-definition lookup rule. -/

/-- Claim C4: `getMachineDefinitionIDForQualitySearch` follows the three-tier
rule: with `has_machine_quality` parsing true and a `quality_definition`
entry present it returns that entry; with `has_machine_quality` true and
no `quality_definition` it returns the machine's own id; otherwise it
returns the generic default `"fdmprinter"`. -/
theorem c4_three_tier_quality_definition_rule (d : MachineDefinition) :
    (parseBool (d.metadata.get? "has_machine_quality") = true →
       (∀ q, d.metadata.get? "quality_definition" = some q →
          getMachineDefinitionIDForQualitySearch d = q) ∧
       (d.metadata.get? "quality_definition" = none →
          getMachineDefinitionIDForQualitySearch d = d.id)) ∧
    (parseBool (d.metadata.get? "has_machine_quality") = false →
       getMachineDefinitionIDForQualitySearch d = "fdmprinter") := by
  refine ⟨fun hb => ⟨fun q hq => ?_, fun hq => ?_⟩, fun hb => ?_⟩
  · simp [getMachineDefinitionIDForQualitySearch, hb, hq]
  · simp [getMachineDefinitionIDForQualitySearch, hb, hq]
  · simp [getMachineDefinitionIDForQualitySearch, hb]

/-- Witness for C4 on a machine with machine quality and an explicit
`quality_definition` override. -/
theorem c4_three_tier_witness :
    parseBool (defWithOverride.metadata.get? "has_machine_quality") = true ∧
    getMachineDefinitionIDForQualitySearch defWithOverride = "ultimaker3" :=
  ⟨rfl, ((c4_three_tier_quality_definition_rule defWithOverride).1 rfl).1 "ultimaker3" rfl⟩

/-- Claim C5: after `removeQualityChangesGroup`, every container of the group is
gone from the registry, every machine or extruder stack whose
`qualityChanges` id was removed now references the empty sentinel, and no
machine or extruder stack references a removed id. -/
theorem c5_remove_group_purges_registry_and_resets_stacks
    (empty_id : String) (group : QualityChangesGroup) (st : QCRegistryState)
    (hempty : (some empty_id) ∉ removedQualityChangesIds group) :
    (∀ node ∈ group.nodes, ∀ i, PyDict.get? node.metadata "id" = some i →
       ∀ c ∈ (removeQualityChangesGroup empty_id group st).containers, c.id ≠ i) ∧
    ((removeQualityChangesGroup empty_id group st).stackList.length = st.stackList.length) ∧
    (∀ i (h1 : i < st.stackList.length)
       (h2 : i < (removeQualityChangesGroup empty_id group st).stackList.length),
       ((st.stackList[i].stype = "machine" ∨ st.stackList[i].stype = "extruder_train") →
          some (st.stackList[i]).qualityChangesId ∈ removedQualityChangesIds group →
          ((removeQualityChangesGroup empty_id group st).stackList[i]).qualityChangesId
            = empty_id) ∧
       ((st.stackList[i].stype = "machine" ∨ st.stackList[i].stype = "extruder_train") →
          some ((removeQualityChangesGroup empty_id group st).stackList[i]).qualityChangesId
            ∉ removedQualityChangesIds group)) := by
  refine ⟨?_, ?_, ?_⟩
  · intro node hnode i hi c hc
    exact foldl_removeContainer_removes (fun node => PyDict.get? node.metadata "id") i
      group.nodes st.containers node hnode hi c hc
  · simp [removeQualityChangesGroup]
  · intro i h1 h2
    have hstack : (removeQualityChangesGroup empty_id group st).stackList[i] =
        resetIfRemoved empty_id (removedQualityChangesIds group) "extruder_train"
          (resetIfRemoved empty_id (removedQualityChangesIds group) "machine" st.stackList[i]) := by
      simp [removeQualityChangesGroup]
    rw [hstack]
    set s := st.stackList[i] with hs
    by_cases hmem : some s.qualityChangesId ∈ removedQualityChangesIds group
    · by_cases hmach : s.stype = "machine"
      · have h1step : resetIfRemoved empty_id (removedQualityChangesIds group) "machine" s =
            { s with qualityChangesId := empty_id } := by
          simp [resetIfRemoved, hmach, hmem]
        rw [h1step]
        have h2step : resetIfRemoved empty_id (removedQualityChangesIds group) "extruder_train"
            ({ s with qualityChangesId := empty_id }) =
            { s with qualityChangesId := empty_id } := by
          simp [resetIfRemoved, hmach, hempty]
        rw [h2step]
        exact ⟨fun _ _ => rfl, fun _ => hempty⟩
      · by_cases hext : s.stype = "extruder_train"
        · have h1step : resetIfRemoved empty_id (removedQualityChangesIds group) "machine" s
              = s := by
            simp [resetIfRemoved, hmach]
          rw [h1step]
          have h2step : resetIfRemoved empty_id (removedQualityChangesIds group)
              "extruder_train" s = { s with qualityChangesId := empty_id } := by
            simp [resetIfRemoved, hext, hmem]
          rw [h2step]
          exact ⟨fun _ _ => rfl, fun _ => hempty⟩
        · have h1step : resetIfRemoved empty_id (removedQualityChangesIds group) "machine" s
              = s := by
            simp [resetIfRemoved, hmach]
          have h2step : resetIfRemoved empty_id (removedQualityChangesIds group)
              "extruder_train" s = s := by
            simp [resetIfRemoved, hext]
          rw [h1step, h2step]
          exact ⟨fun ht _ => absurd ht (by simp [hmach, hext]),
                 fun ht => absurd ht (by simp [hmach, hext])⟩
    · have h1step : resetIfRemoved empty_id (removedQualityChangesIds group) "machine" s
          = s := by
        simp [resetIfRemoved, hmem]
      have h2step : resetIfRemoved empty_id (removedQualityChangesIds group)
          "extruder_train" s = s := by
        simp [resetIfRemoved, hmem]
      rw [h1step, h2step]
      exact ⟨fun _ hm => absurd hm hmem, fun _ => hmem⟩

/-- Witness for C5 on a concrete registry with the group active on a
machine stack and an extruder stack. -/
theorem c5_remove_group_witness :
    (some "empty_quality_changes") ∉ removedQualityChangesIds groupG ∧
    (∀ node ∈ groupG.nodes, ∀ i, PyDict.get? node.metadata "id" = some i →
       ∀ c ∈ (removeQualityChangesGroup "empty_quality_changes" groupG stateG).containers,
         c.id ≠ i) :=
  ⟨by decide,
   (c5_remove_group_purges_registry_and_resets_stacks "empty_quality_changes" groupG stateG
     (by decide)).1⟩

/-- Claim C8: renaming a quality-changes group to its current name is a no-op:
the unchanged name is returned, the group and its containers are
untouched, the uniqueness service is not consulted and no quality-changed
signal is emitted. -/
theorem c8_rename_to_current_name_is_noop (uniqueName : String → String)
    (quality_changes_group : QualityChangesGroup) (new_name : String)
    (h : new_name = quality_changes_group.name) :
    renameQualityChangesGroup uniqueName quality_changes_group new_name =
      { returned_name := new_name, group := quality_changes_group,
        unique_name_calls := 0, signals_emitted := 0 } := by
  simp [renameQualityChangesGroup, h]

/-- Witness for C8: renaming the concrete group to its own name. -/
theorem c8_rename_witness :
    "My Profile" = groupG.name ∧
    renameQualityChangesGroup (fun s => s ++ " #2") groupG "My Profile" =
      { returned_name := "My Profile", group := groupG,
        unique_name_calls := 0, signals_emitted := 0 } :=
  ⟨rfl, c8_rename_to_current_name_is_noop (fun s => s ++ " #2") groupG "My Profile" rfl⟩

/-! Lemmas about metadata application and registry insertion. -/

theorem applyNewMetadata_get?_of_absent (o : PyDict String) :
    ∀ (md : PyDict String) (k : String), PyDict.get? o k = none →
      PyDict.get? (applyNewMetadata md o) k = PyDict.get? md k := by
  induction o with
  | nil => intro md k _; rfl
  | cons p rest ih =>
    obtain ⟨k0, v0⟩ := p
    intro md k hk
    rw [PyDict.get?_cons] at hk
    by_cases h0 : (k0 == k)
    · rw [if_pos h0] at hk; cases hk
    · rw [if_neg h0] at hk
      have h0' : k ≠ k0 := by
        intro he
        exact h0 (by simp [beq_iff_eq, he])
      have step : applyNewMetadata md ((k0, v0) :: rest) = applyNewMetadata (md.set k0 v0) rest := rfl
      rw [step, ih (md.set k0 v0) k hk, PyDict.get?_set_ne md k0 k v0 h0']

theorem mem_addContainer_of_mem {registry : List Container} {c0 c : Container}
    (h : c0 ∈ registry) : c0 ∈ addContainer registry c := by
  unfold addContainer
  split
  · exact h
  · exact List.mem_append_left _ h

theorem self_mem_addContainer {registry : List Container} {c : Container}
    (h : ∀ c0 ∈ registry, containerId c0 ≠ containerId c) : c ∈ addContainer registry c := by
  unfold addContainer
  split
  · next hany =>
    exfalso
    rcases List.any_eq_true.mp hany with ⟨c0, hc0, hbeq⟩
    exact h c0 hc0 (by simpa using hbeq)
  · exact List.mem_append_right _ (by simp)

theorem mem_foldl_addContainer_of_mem :
    ∀ (cs : List Container) {registry : List Container} {c0 : Container},
      c0 ∈ registry → c0 ∈ cs.foldl addContainer registry := by
  intro cs
  induction cs with
  | nil => intro reg c0 h; exact h
  | cons c rest ih => intro reg c0 h; exact ih (mem_addContainer_of_mem h)

theorem cloneDerivatives_covers (nb : String) (overrides : PyDict String) (root : String) :
    ∀ (cs cloned : List Container),
    cloneDerivatives nb overrides root cs = Except.ok cloned →
    ∀ c ∈ cs, containerId c ≠ root →
      ∃ new_id, deriveCopyId nb c = Except.ok new_id ∧
        ({ metadata := applyNewMetadata ((c.metadata.set "id" new_id).set "base_file" nb)
            overrides } : Container) ∈ cloned := by
  intro cs
  induction cs with
  | nil => intro cloned _ c hc; simp at hc
  | cons c0 rest ih =>
    intro cloned h c hc hcroot
    simp only [cloneDerivatives] at h
    by_cases hskip : (containerId c0 == root)
    · rw [if_pos hskip] at h
      rcases List.mem_cons.mp hc with h0 | hr
      · subst h0
        exact absurd (by simpa [beq_iff_eq] using hskip) hcroot
      · exact ih cloned h c hr hcroot
    · rw [if_neg hskip] at h
      cases hderive : deriveCopyId nb c0 with
      | error e => rw [hderive] at h; cases h
      | ok new_id0 =>
        rw [hderive] at h
        cases htail : cloneDerivatives nb overrides root rest with
        | error e => rw [htail] at h; cases h
        | ok tail =>
          rw [htail] at h
          simp only [Except.ok.injEq] at h
          rcases List.mem_cons.mp hc with h0 | hr
          · subst h0
            exact ⟨new_id0, hderive, by rw [← h]; exact List.mem_cons_self _ _⟩
          · obtain ⟨new_id, hni, hmem⟩ := ih tail htail c hr hcroot
            exact ⟨new_id, hni, by rw [← h]; exact List.mem_cons_of_mem _ hmem⟩

/-- Metadata lookup of the fresh copy built from a source container:
unchanged outside `id`, `base_file` and the overridden keys. -/
theorem copy_metadata_get? (src : PyDict String) (new_id nb : String)
    (overrides : PyDict String) (key : String)
    (hid : key ≠ "id") (hbase : key ≠ "base_file")
    (hov : PyDict.get? overrides key = none) :
    PyDict.get? (applyNewMetadata ((src.set "id" new_id).set "base_file" nb) overrides) key
      = PyDict.get? src key := by
  rw [applyNewMetadata_get?_of_absent overrides _ key hov,
    PyDict.get?_set_ne _ _ _ _ hbase, PyDict.get?_set_ne _ _ _ _ hid]

/-! Claim theorems about the material manager. -/

/-- Claim C6, counterexample: duplicating `generic_pla` succeeds and returns the
fresh root id, yet `getMaterialGroup` on the new id immediately after the
call returns nothing — the call never writes `_material_group_map` (and in
this revision of the file nothing else ever does), so the copy is not
retrievable through `getMaterialGroup` immediately after, contradicting
the claim at this input. -/
theorem c6_not_immediately_retrievable_counterexample :
    ∃ res, duplicateMaterialByRootId uniqTag statePLA "generic_pla" none none
        = Except.ok res ∧
      res.new_root_id = some "generic_pla #2" ∧
      getMaterialGroup res.state "generic_pla #2" = none := by
  exact ⟨_, rfl, rfl, rfl⟩

/-- Claim C6, amended: duplicating an existing root id (no explicit new id, with
a fresh name from the uniqueness service) returns a new root id distinct
from the source, leaves the material-group map untouched (so
`getMaterialGroup` answers exactly as before the call, rather than
offering the copy immediately), puts the base copy in the registry with
`base_file` pointing at itself and all non-overridden metadata (brand,
material, color, GUID) preserved, deep-copies every derivative sharing
the source's `base_file` the same way — the resulting registry being
exactly the `addContainer` fold over the base copy and those clones — and
returns no id when the source does not exist. -/
theorem c6_duplicate_material_amended
    (uniqueName : String → String) (st : MaterialManagerState) (root_material_id : String)
    (new_metadata : Option (PyDict String))
    (hfresh : ∀ s, ∀ c ∈ st.registry, containerId c ≠ uniqueName s)
    (hovid : PyDict.get? (new_metadata.getD []) "id" = none)
    (hovbase : PyDict.get? (new_metadata.getD []) "base_file" = none) :
    (findContainersById st.registry root_material_id = [] →
       duplicateMaterialByRootId uniqueName st root_material_id none new_metadata =
         Except.ok { new_root_id := none, state := st, favorite_added := none }) ∧
    (∀ base_container foundRest,
       findContainersById st.registry root_material_id = base_container :: foundRest →
       ∀ res, duplicateMaterialByRootId uniqueName st root_material_id none new_metadata
           = Except.ok res →
       ∃ nb, res.new_root_id = some nb ∧
         nb = uniqueName (containerId base_container) ∧
         nb ≠ root_material_id ∧
         res.state.material_group_map = st.material_group_map ∧
         getMaterialGroup res.state nb = getMaterialGroup st nb ∧
         (∃ c ∈ res.state.registry, containerId c = nb ∧
            PyDict.get? c.metadata "base_file" = some nb ∧
            ∀ key, key ≠ "id" → key ≠ "base_file" →
              PyDict.get? (new_metadata.getD []) key = none →
              PyDict.get? c.metadata key = PyDict.get? base_container.metadata key) ∧
         (∀ cloned, cloneDerivatives nb (new_metadata.getD []) root_material_id
              (findContainersByBaseFile st.registry root_material_id) = Except.ok cloned →
            res.state.registry = List.foldl addContainer st.registry
              (baseCopyContainer base_container nb (new_metadata.getD []) :: cloned) ∧
            ∀ container_to_copy ∈ findContainersByBaseFile st.registry root_material_id,
              containerId container_to_copy ≠ root_material_id →
              ∃ c ∈ cloned,
                PyDict.get? c.metadata "base_file" = some nb ∧
                ∀ key, key ≠ "id" → key ≠ "base_file" →
                  PyDict.get? (new_metadata.getD []) key = none →
                  PyDict.get? c.metadata key
                    = PyDict.get? container_to_copy.metadata key)) := by
  constructor
  · intro hempty
    unfold duplicateMaterialByRootId
    rw [hempty]
  · intro base_container foundRest hfind res hres
    unfold duplicateMaterialByRootId at hres
    rw [hfind] at hres
    dsimp only at hres
    have hmemf : base_container ∈ List.filter
        (fun c => PyDict.get? c.metadata "id" == some root_material_id) st.registry := by
      have hmem : base_container ∈ findContainersById st.registry root_material_id := by
        rw [hfind]; exact List.mem_cons_self _ _
      exact hmem
    have hbaseid : containerId base_container = root_material_id := by
      have hpred := List.of_mem_filter hmemf
      simp only [beq_iff_eq] at hpred
      simp [containerId, hpred]
    have hbasemem : base_container ∈ st.registry := List.mem_of_mem_filter hmemf
    set nbv := uniqueName (containerId base_container) with hnbv
    set copyC := baseCopyContainer base_container nbv (new_metadata.getD []) with hcopyC
    cases hclone : cloneDerivatives nbv (new_metadata.getD []) root_material_id
        (findContainersByBaseFile st.registry root_material_id) with
    | error e => rw [hclone] at hres; cases hres
    | ok cloned =>
      rw [hclone] at hres
      simp only [Except.ok.injEq] at hres
      subst hres
      have hidcopy : containerId copyC = nbv := by
        rw [hcopyC]
        simp only [containerId, baseCopyContainer]
        rw [applyNewMetadata_get?_of_absent _ _ _ hovid,
          PyDict.get?_set_ne _ _ _ _ (by decide), PyDict.get?_set_self]
        rfl
      refine ⟨nbv, rfl, rfl, ?_, rfl, rfl, ?_, ?_⟩
      · intro he
        exact hfresh (containerId base_container) base_container hbasemem
          (hbaseid.trans he.symm)
      · refine ⟨copyC, ?_, hidcopy, ?_, ?_⟩
        · show copyC ∈ List.foldl addContainer st.registry (copyC :: cloned)
          have hself : copyC ∈ addContainer st.registry copyC :=
            self_mem_addContainer (by
              intro c0 hc0
              rw [hidcopy]
              exact hfresh (containerId base_container) c0 hc0)
          exact mem_foldl_addContainer_of_mem cloned hself
        · rw [hcopyC]
          simp only [baseCopyContainer]
          rw [applyNewMetadata_get?_of_absent _ _ _ hovbase, PyDict.get?_set_self]
        · intro key hkid hkbase hkov
          rw [hcopyC]
          simp only [baseCopyContainer]
          exact copy_metadata_get? base_container.metadata _ _ _ key hkid hkbase hkov
      · intro cloned2 hclone2
        rw [hclone] at hclone2
        simp only [Except.ok.injEq] at hclone2
        subst hclone2
        constructor
        · rw [hcopyC]
        · intro container_to_copy hctc hctcroot
          obtain ⟨new_id, _, hmem⟩ := cloneDerivatives_covers
            nbv (new_metadata.getD []) root_material_id
            (findContainersByBaseFile st.registry root_material_id) cloned hclone
            container_to_copy hctc hctcroot
          refine ⟨_, hmem, ?_, ?_⟩
          · rw [applyNewMetadata_get?_of_absent _ _ _ hovbase, PyDict.get?_set_self]
          · intro key hkid hkbase hkov
            exact copy_metadata_get? container_to_copy.metadata _ _ _ key hkid hkbase hkov

/-- Witness for the amended C6 on the concrete PLA registry, with a
uniqueness service returning the fresh name `generic_pla_copy`. -/
theorem c6_duplicate_material_witness :
    ∃ res, duplicateMaterialByRootId (fun _ => "generic_pla_copy") statePLA "generic_pla"
        none none = Except.ok res ∧
      ∃ nb, res.new_root_id = some nb ∧
        nb = (fun _ => "generic_pla_copy") (containerId basePLA) ∧
        nb ≠ "generic_pla" ∧
        res.state.material_group_map = statePLA.material_group_map ∧
        getMaterialGroup res.state nb = getMaterialGroup statePLA nb ∧
        (∃ c ∈ res.state.registry, containerId c = nb ∧
           PyDict.get? c.metadata "base_file" = some nb ∧
           ∀ key, key ≠ "id" → key ≠ "base_file" →
             PyDict.get? ((none : Option (PyDict String)).getD []) key = none →
             PyDict.get? c.metadata key = PyDict.get? basePLA.metadata key) ∧
        (∀ cloned, cloneDerivatives nb ((none : Option (PyDict String)).getD []) "generic_pla"
             (findContainersByBaseFile statePLA.registry "generic_pla") = Except.ok cloned →
           res.state.registry = List.foldl addContainer statePLA.registry
             (baseCopyContainer basePLA nb ((none : Option (PyDict String)).getD []) :: cloned) ∧
           ∀ container_to_copy ∈ findContainersByBaseFile statePLA.registry "generic_pla",
             containerId container_to_copy ≠ "generic_pla" →
             ∃ c ∈ cloned,
               PyDict.get? c.metadata "base_file" = some nb ∧
               ∀ key, key ≠ "id" → key ≠ "base_file" →
                 PyDict.get? ((none : Option (PyDict String)).getD []) key = none →
                 PyDict.get? c.metadata key
                   = PyDict.get? container_to_copy.metadata key) := by
  refine ⟨_, rfl, ?_⟩
  exact (c6_duplicate_material_amended (fun _ => "generic_pla_copy") statePLA "generic_pla"
    none (by intro s c hc; fin_cases hc <;> simp [containerId, PyDict.get?, List.find?])
    rfl rfl).2 basePLA [] rfl _ rfl

/-- Claim C7: under the spec-modelled well-formedness of the fallback and
diameter maps, `getFallbackMaterialIdByMaterialType` round-trips: a
registered material type resolves to a root id whose material-type
metadata is that same type; an unregistered type yields the warning and
nothing. -/
theorem c7_fallback_material_round_trip (st : MaterialManagerState)
    (hwf : FallbackMapsWellFormed st) (T : String) :
    (∀ fm, PyDict.get? st.fallback_materials_map T = some fm →
       ∃ r, getFallbackMaterialIdByMaterialType st T = Except.ok (some r, false) ∧
         materialTypeOfId st r = some T) ∧
    (PyDict.get? st.fallback_materials_map T = none →
       getFallbackMaterialIdByMaterialType st T = Except.ok (none, true)) := by
  constructor
  · intro fm hfm
    obtain ⟨hne, i, hi, r, hr, hmat⟩ := hwf T fm hfm
    refine ⟨r, ?_, hmat⟩
    unfold getFallbackMaterialIdByMaterialType
    rw [hfm]
    simp [hne, hi, getRootMaterialIDWithoutDiameter, hr]
  · intro h
    unfold getFallbackMaterialIdByMaterialType
    rw [h]

/-- Witness for C7: on the concrete state, PLA resolves to `generic_pla`
(whose material type is PLA), and ABS is unregistered. -/
theorem c7_fallback_material_witness :
    (∃ r, getFallbackMaterialIdByMaterialType statePLA "PLA" = Except.ok (some r, false) ∧
       materialTypeOfId statePLA r = some "PLA") ∧
    getFallbackMaterialIdByMaterialType statePLA "ABS" = Except.ok (none, true) := by
  have hwf : FallbackMapsWellFormed statePLA := by
    intro T fm hfm
    have hshape : PyDict.get? statePLA.fallback_materials_map T
        = if ("PLA" == T) then some [("id", "generic_pla_175")] else none := by
      rw [show statePLA.fallback_materials_map
          = [("PLA", [("id", "generic_pla_175")])] from rfl, PyDict.get?_cons]
      rfl
    rw [hshape] at hfm
    by_cases hT : (("PLA" : String) == T)
    · rw [if_pos hT] at hfm
      have hTeq : ("PLA" : String) = T := by simpa [beq_iff_eq] using hT
      subst hTeq
      cases hfm
      exact ⟨by decide, "generic_pla_175", rfl, "generic_pla", rfl, rfl⟩
    · rw [if_neg hT] at hfm
      cases hfm
  exact ⟨(c7_fallback_material_round_trip statePLA hwf "PLA").1 [("id", "generic_pla_175")] rfl,
         (c7_fallback_material_round_trip statePLA hwf "ABS").2 rfl⟩

/-- Claim C9: `selectIntent` with a global stack present is total over the used
extruders: the result has one entry per used extruder, and each entry's
intent is either the empty-intent sentinel or a container from the
registry matching the requested category and quality type (and the
extruder's own variant and material filters). -/
theorem c9_select_intent_total (registry : List Container) (empty_intent : Container)
    (gs : GlobalStack) (used : List UsedExtruder) (intent_category quality_type : String) :
    (selectIntent registry empty_intent (some gs) used
        intent_category quality_type).extruders.length = used.length ∧
    ∀ i (h1 : i < used.length)
      (h2 : i < (selectIntent registry empty_intent (some gs) used
        intent_category quality_type).extruders.length),
      ((selectIntent registry empty_intent (some gs) used
          intent_category quality_type).extruders[i]).intent = some empty_intent ∨
      ∃ m, ((selectIntent registry empty_intent (some gs) used
          intent_category quality_type).extruders[i]).intent = some m ∧
        m ∈ findIntentContainers registry (PyDict.get? gs.definitionMetadata "id")
            (used[i]).variantName (used[i]).materialBaseFile quality_type intent_category ∧
        PyDict.get? m.metadata "quality_type" = some quality_type ∧
        PyDict.get? m.metadata "intent_category" = some intent_category := by
  constructor
  · simp [selectIntent]
  · intro i h1 h2
    cases hfind : findIntentContainers registry (PyDict.get? gs.definitionMetadata "id")
        (used[i]).variantName (used[i]).materialBaseFile quality_type intent_category with
    | nil =>
      left
      simp [selectIntent, hfind]
    | cons m tail =>
      right
      have hmem : m ∈ findIntentContainers registry (PyDict.get? gs.definitionMetadata "id")
          (used[i]).variantName (used[i]).materialBaseFile quality_type intent_category := by
        rw [hfind]
        exact List.mem_cons_self _ _
      have hpred := List.of_mem_filter (by simpa [findIntentContainers] using hmem)
      simp only [intentMatches, Bool.and_eq_true, beq_iff_eq] at hpred
      refine ⟨m, ?_, List.mem_cons_self m tail, hpred.1.2, hpred.2⟩
      simp [selectIntent, hfind]

/-- Witness for C9: two used extruders; the first gets the matching
engineering intent, the second falls back to the sentinel. -/
theorem c9_select_intent_witness :
    (selectIntent [intentEng] emptyIntent (some gsIntent) usedIntent
        "engineering" "normal").extruders.length = usedIntent.length ∧
    ∃ e, (selectIntent [intentEng] emptyIntent (some gsIntent) usedIntent
        "engineering" "normal").extruders.head? = some e ∧
      (e.intent = some emptyIntent ∨
       ∃ m, e.intent = some m ∧
         m ∈ findIntentContainers [intentEng] (PyDict.get? gsIntent.definitionMetadata "id")
             (some "AA 0.4") (some "generic_pla") "normal" "engineering" ∧
         PyDict.get? m.metadata "quality_type" = some "normal" ∧
         PyDict.get? m.metadata "intent_category" = some "engineering") := by
  have h := c9_select_intent_total [intentEng] emptyIntent gsIntent usedIntent
    "engineering" "normal"
  refine ⟨h.1, ?_⟩
  have h0 := h.2 0 (by decide) (by rw [h.1]; decide)
  exact ⟨_, rfl, h0⟩

end Cura
